import Mathlib

/-!
Shallow embedding of the conversion core of the carbone-lambda-poc repository
(src/modules/conversion.ts, src/modules/libreoffice.ts,
src/modules/request-handler.ts).

External effects (the carbone library, the filesystem, subprocess execution)
are supplied as oracle fields of environment structures; the control flow of
each embedded function is translated line by line from the TypeScript source.
Buffers and error messages are modelled as `String`.
-/

set_option maxRecDepth 10000

namespace CarboneLambda

/-! ## Conversion module (src/modules/conversion.ts) -/

/-- Filesystem state of the two scratch artifacts used by the subprocess
fallback: whether the scratch input docx exists, and the content of the
scratch output pdf if it exists (`none` = absent). -/
structure FsState where
  inputExists : Bool
  output : Option String
deriving DecidableEq

/-- Oracle outcome of one attempt of the fallback loop:
`execErr = some e` means the `execFileAsync(sofficePath, args, ...)` call
rejected with error `e` (timeout, nonzero exit, spawn failure);
`writesOutput = some b` means the engine wrote the expected output PDF
file with content `b` during the attempt (which can happen even when the
call itself is reported failed, e.g. a timeout after the file was
produced); `readErr = some e` means the in-try read of the output file
(conversion.ts line 187) throws `e` when reached. -/
structure ExecAttempt where
  execErr : Option String
  writesOutput : Option String
  readErr : Option String

/-- Environment of `renderPdf`: configuration flags, the external carbone
library (`carboneRender o` is the outcome of `carbone.render` with the
`convertTo` option set to `o`), the result of `findSofficeBinary()`, the
two uncaught filesystem steps of the fallback — the scratch-input write
at conversion.ts line 131 (`inputAfterFailedWrite` records whether a
partially created input file remains when that write itself throws, since
the source neither checks nor cleans this) and the profile-directory
creation at line 135 — and the subprocess oracle keyed by the filter name
passed after the convert-to flag. -/
structure RenderEnv where
  skipConvert : Bool
  alwaysSoffice : Bool
  carboneRender : Option String → Except String String
  sofficePath : Option String
  writeInput : Except String Unit
  inputAfterFailedWrite : Bool
  mkdirProfile : Except String Unit
  exec : String → ExecAttempt

/-- Function `carboneToBuf` wraps `carbone.render` into a promise;
`convertTo` is the optional filter from the options object. -/
def carboneToBuf (env : RenderEnv) (convertTo : Option String) : Except String String :=
  env.carboneRender convertTo

/-- The four convert-to filter variants tried by the subprocess fallback
loop, in source order. -/
def conversionAttemptFilters : List String :=
  ["pdf", "pdf:writer_pdf_Export", "pdf:writer_pdf_export", "pdf:writer_web_pdf_Export"]

/-- Result of the fallback loop over the filter variants: the buffer of the
first successful attempt (if any), the final scratch-file state, the last
recorded attempt error, and the list of filters actually passed to the
subprocess. -/
structure LoopResult where
  success : Option String
  fs : FsState
  lastErr : Option String
  calls : List String

/-- State of the scratch files after one engine invocation: if the engine
produced the output file its content replaces whatever was there. -/
def outputAfter (a : ExecAttempt) (fs : FsState) : FsState :=
  ⟨fs.inputExists, match a.writesOutput with
    | some b => some b
    | none => fs.output⟩

/-- Record one more attempted filter in a loop result. -/
def tack (f : String) (r : LoopResult) : LoopResult :=
  ⟨r.success, r.fs, r.lastErr, f :: r.calls⟩

/-- The loop over `conversionAttempts` inside `fallbackSofficePath`
(conversion.ts lines 148-201).  Each iteration invokes the engine; on a
successful invocation with the output file present the output is read and
both scratch files are unlinked; any failure inside the per-attempt try —
subprocess rejection, the thrown output-missing error, or a throwing read
of the output file (in which case neither scratch file is unlinked) — is
recorded in `lastError` and the next filter is tried. -/
def sofficeLoop (exec : String → ExecAttempt) :
    List String → FsState → Option String → LoopResult
  | [], fs, lastErr => ⟨none, fs, lastErr, []⟩
  | f :: rest, fs, lastErr =>
    let fs1 := outputAfter (exec f) fs
    match (exec f).execErr with
    | some e => tack f (sofficeLoop exec rest fs1 (some e))
    | none =>
      match fs1.output with
      | some buf =>
        match (exec f).readErr with
        | some e => tack f (sofficeLoop exec rest fs1 (some e))
        | none => ⟨some buf, ⟨false, none⟩, lastErr, [f]⟩
      | none =>
        tack f (sofficeLoop exec rest fs1 (some ("PDF output missing after soffice conversion")))

/-- Outcome of `fallbackSofficePath`: the promise result, the final state of
the scratch files, the subprocess invocations made, and whether the scratch
input file was ever written. -/
structure FallbackResult where
  result : Except String String
  fs : FsState
  calls : List String
  wroteInput : Bool

/-- Function `fallbackSofficePath(data, sofficePath, primaryError)`
(conversion.ts lines 105-207).  It throws `primaryError` (when set) if the
binary is absent or DOCX generation fails; it then writes the scratch
input file (line 131) and creates the profile directory (line 135) — both
uncaught, so an exception from either propagates as-is, with no unlink of
an already-written input file — and runs the filter loop; on loop
exhaustion it unlinks the input file only and throws the first available
of `primaryError`, `lastError` and a generic error.  `wroteInput` records
that the input write completed. -/
def fallbackSofficePath (env : RenderEnv) (primaryError : Option String) : FallbackResult :=
  match env.sofficePath with
  | none =>
    ⟨.error (primaryError.getD ("Fallback requested but soffice binary not found")),
      ⟨false, none⟩, [], false⟩
  | some _ =>
    match carboneToBuf env none with
    | .error e => ⟨.error (primaryError.getD e), ⟨false, none⟩, [], false⟩
    | .ok _docx =>
      match env.writeInput with
      | .error e => ⟨.error e, ⟨env.inputAfterFailedWrite, none⟩, [], false⟩
      | .ok _ =>
        match env.mkdirProfile with
        | .error e => ⟨.error e, ⟨true, none⟩, [], true⟩
        | .ok _ =>
          let r := sofficeLoop env.exec conversionAttemptFilters ⟨true, none⟩ none
          match r.success with
          | some buf => ⟨.ok buf, r.fs, r.calls, true⟩
          | none =>
            ⟨.error (primaryError.getD (r.lastErr.getD ("All fallback soffice attempts failed"))),
              ⟨false, r.fs.output⟩, r.calls, true⟩

/-- The fixed placeholder PDF built by `createPlaceholderPdf`
(conversion.ts lines 213-236), byte for byte. -/
def createPlaceholderPdf : String :=
  "%PDF-1.4\n1 0 obj<<>>endobj\n2 0 obj<< /Type /Page /Parent 3 0 R /MediaBox[0 0 200 200] /Contents 4 0 R >>endobj\n3 0 obj<< /Type /Pages /Kids[2 0 R] /Count 1 >>endobj\n4 0 obj<< /Length 44 >>stream\nBT /F1 12 Tf 10 100 Td (Local Test PDF) Tj ET\nendstream endobj\n5 0 obj<< /Type /Catalog /Pages 3 0 R >>endobj\nxref\n0 6\n0000000000 65535 f \n0000000010 00000 n \n0000000053 00000 n \n0000000124 00000 n \n0000000179 00000 n \n0000000293 00000 n \ntrailer<< /Size 6 /Root 5 0 R >>\nstartxref\n352\n%%EOF"

/-- Outcome of `renderPdf`: the promise result plus the observable activity
(final scratch-file state, subprocess invocations, whether the fallback
path was entered, whether the scratch input was written, and whether the
`prepareFontConfig()` and `findSofficeBinary()` step at lines 35-36 ran). -/
structure RenderResult where
  result : Except String String
  fs : FsState
  calls : List String
  enteredFallback : Bool
  wroteInput : Bool
  preparedFonts : Bool

/-- Function `renderPdf(data)` (conversion.ts lines 30-80).  The template
data only flows into the opaque `carboneRender` oracle, so it does not
appear as a separate argument; in particular the skip-convert branch
returns the placeholder before any use of the data and before any
filesystem or subprocess effect. -/
def renderPdf (env : RenderEnv) : RenderResult :=
  if env.skipConvert then
    ⟨.ok createPlaceholderPdf, ⟨false, none⟩, [], false, false, false⟩
  else
    -- prepareFontConfig(); const sofficePath = findSofficeBinary()
    if env.alwaysSoffice then
      let fb := fallbackSofficePath env none
      ⟨fb.result, fb.fs, fb.calls, true, fb.wroteInput, true⟩
    else
      match carboneToBuf env (some ("pdf")) with
      | .ok b => ⟨.ok b, ⟨false, none⟩, [], false, false, true⟩
      | .error e1 =>
        match carboneToBuf env (some ("pdf:writer_pdf_Export")) with
        | .ok b => ⟨.ok b, ⟨false, none⟩, [], false, false, true⟩
        | .error _e2 =>
          let fb := fallbackSofficePath env (some e1)
          ⟨fb.result, fb.fs, fb.calls, true, fb.wroteInput, true⟩

/-! ## LibreOffice module (src/modules/libreoffice.ts): extraction -/

/-- Environment of `extractLibreOffice`: the filesystem facts and fallible
steps it performs.  `alreadyExtracted` is the existence check on the
soffice binaries under the extraction root; `brExists` and `gzExists` are
the existence of the two archive candidates; the remaining fields are the
fallible steps (buffers modelled as strings). -/
structure ExtractEnv where
  alreadyExtracted : Bool
  brExists : Bool
  gzExists : Bool
  mkdirRoot : Except String Unit
  readArchive : String → Except String String
  brotliDecompress : String → Except String String
  gunzipDecompress : String → Except String String
  writeTmpTar : Except String Unit
  tarExtract : Except String Unit

/-- Function `findLibreOfficeArchive()` (libreoffice.ts lines 92-96):
prefer the brotli archive, then the gzip archive, else null. -/
def findLibreOfficeArchive (env : ExtractEnv) : Option String :=
  if env.brExists then some ("/opt/lo.tar.br")
  else if env.gzExists then some ("/opt/lo.tar.gz")
  else none

/-- Function `decompressArchive(buf, archivePath)` (libreoffice.ts lines
101-109): dispatch on the path suffix. -/
def decompressArchive (env : ExtractEnv) (buf archivePath : String) : Except String String :=
  if archivePath.endsWith (".br") then env.brotliDecompress buf
  else if archivePath.endsWith (".gz") then env.gunzipDecompress buf
  else .error ("Unsupported LO archive format")

/-- Body of `extractLibreOffice()` (libreoffice.ts lines 38-82, the try
block).  Returns `ok true` when `loReady` is set (already extracted, or
archive unpacked), `ok false` when the archive is missing (extraction
skipped, logged as a warning), and `error e` when a step throws.
`addLibreOfficeToPath` and the best-effort unlink of the temporary tar
swallow their own failures and are effect-free in this model. -/
def extractBody (env : ExtractEnv) : Except String Bool :=
  if env.alreadyExtracted then
    -- addLibreOfficeToPath(); loReady = true
    .ok true
  else
    match findLibreOfficeArchive env with
    | none => .ok false
    | some archivePath => do
      let _ ← env.mkdirRoot
      let buf ← env.readArchive archivePath
      let _tarBuffer ← decompressArchive env buf archivePath
      let _ ← env.writeTmpTar
      let _ ← env.tarExtract
      -- addLibreOfficeToPath(); loReady = true
      pure true

/-- Function `extractLibreOffice()` with its catch clause (libreoffice.ts
lines 83-86): any exception is logged and re-thrown unchanged. -/
def extractLibreOffice (env : ExtractEnv) : Except String Bool :=
  match extractBody env with
  | .ok v => .ok v
  | .error e => .error e

/-- Module-level mutable state of libreoffice.ts (lines 17-18): `loReady`,
and `loExtractPromise` modelled as the id of the single pending promise
together with the value that promise settles with (`ok true` = extraction
set `loReady`; `ok false` = extraction skipped; `error e` = rejected). -/
structure LOState where
  loReady : Bool
  loExtractPromise : Option Nat
  promiseOutcome : Option (Except String Bool)

/-- Initial module state: `loReady = false`, `loExtractPromise = null`. -/
def loInit : LOState := ⟨false, none, none⟩

/-- What one call to `ensureLibreOfficeExtracted` returns to its caller: an
immediate resolution (`skipped` via the skip flag, `ready` via `loReady`),
the existing pending promise (`joined`), or a newly started extraction
promise (`started`). -/
inductive LOCallResult where
  | skipped
  | ready
  | joined (pid : Nat)
  | started (pid : Nat)
deriving DecidableEq

/-- Function `ensureLibreOfficeExtracted()` (libreoffice.ts lines 25-32) as
a step on the module state; `fresh` is the id allocated to a newly created
promise, whose eventual settlement value is `extractLibreOffice env`. -/
def ensureLibreOfficeExtracted (env : ExtractEnv) (skipConvert : Bool)
    (s : LOState) (fresh : Nat) : LOState × LOCallResult :=
  if skipConvert then (s, .skipped)
  else if s.loReady then (s, .ready)
  else
    match s.loExtractPromise with
    | some p => (s, .joined p)
    | none => (⟨s.loReady, some fresh, some (extractLibreOffice env)⟩, .started fresh)

/-- The pending extraction promise settling: on `ok true` the extraction
routine has set `loReady = true`; on `ok false` (skipped) or rejection it
leaves the state unchanged. -/
def resolveExtraction (s : LOState) : LOState :=
  match s.promiseOutcome with
  | some (Except.ok true) => ⟨true, s.loExtractPromise, s.promiseOutcome⟩
  | _ => s

/-- An interleaving event: a caller invoking `ensureLibreOfficeExtracted`,
or the in-flight extraction completing. -/
inductive LOEvent where
  | call
  | complete
deriving DecidableEq

/-- Run a sequence of interleaved events against the module state,
allocating fresh promise ids from `k`, and collect what each caller was
returned. -/
def loRun (env : ExtractEnv) (skipConvert : Bool) :
    List LOEvent → LOState → Nat → LOState × List LOCallResult
  | [], s, _ => (s, [])
  | LOEvent.call :: es, s, k =>
    let step := ensureLibreOfficeExtracted env skipConvert s k
    let rest := loRun env skipConvert es step.1 (k + 1)
    (rest.1, step.2 :: rest.2)
  | LOEvent.complete :: es, s, k => loRun env skipConvert es (resolveExtraction s) (k + 1)

/-- Promise id of a call result that started an extraction. -/
def loStartedPid : LOCallResult → Option Nat
  | .started p => some p
  | _ => none

/-- Promise id held by a caller that was returned a pending promise
(either freshly started or joined). -/
def loHandlePid : LOCallResult → Option Nat
  | .joined p => some p
  | .started p => some p
  | _ => none

/-! ## LibreOffice module: binary discovery (`findSofficeBinary`) -/

/-- Outcome of one existence probe: the file exists, it does not, or the
probe itself throws (caught and ignored by the source). -/
inductive ProbeResult where
  | found
  | absent
  | failed
deriving DecidableEq

/-- Path join for the non-empty-directory case. -/
def pathJoin (dir name : String) : String := dir ++ "/" ++ name

/-- The two candidate binary names, in source order. -/
def sofficeNames : List String := ["soffice", "soffice.bin"]

/-- The probed directories, in source order: the extraction target's
program directory, two well-known alternates, then every entry of the
current PATH (the source splits the PATH variable, defaulted to the empty
string, on colons). -/
def sofficeDirs (pathEnv : Option String) : List String :=
  ["/tmp/libreoffice/instdir/program", "/opt/instdir/program", "/opt/libreoffice/program"]
    ++ (pathEnv.getD ("")).splitOn (":")

/-- Inner loop of `findSofficeBinary` over the candidate names inside one
directory, skipping probes that throw. -/
def findSofficeInDir (probe : String → ProbeResult) (dir : String) :
    List String → Option String
  | [] => none
  | n :: ns =>
    let fullPath := pathJoin dir n
    if probe fullPath = ProbeResult.found then some fullPath
    else findSofficeInDir probe dir ns

/-- Outer loop of `findSofficeBinary` over the probed directories. -/
def findSofficeInDirs (probe : String → ProbeResult) : List String → Option String
  | [] => none
  | d :: ds =>
    match findSofficeInDir probe d sofficeNames with
    | some fullPath => some fullPath
    | none => findSofficeInDirs probe ds

/-- Function `findSofficeBinary()` (libreoffice.ts lines 195-218), with the
filesystem supplied as the `probe` oracle and the current PATH as
`pathEnv`. -/
def findSofficeBinary (probe : String → ProbeResult) (pathEnv : Option String) :
    Option String :=
  findSofficeInDirs probe (sofficeDirs pathEnv)

/-- Modelled from the spec (section 4.2, Executable Locator): the flat
candidate list, ordered directory-major with the plain name before the
bin-suffixed variant in each directory. -/
def sofficeCandidates : List String → List String
  | [] => []
  | d :: ds => pathJoin d ("soffice") :: pathJoin d ("soffice.bin") :: sofficeCandidates ds

/-- Modelled from the spec (section 4.2): return the first existing
candidate of the ordered candidate list, or absence. -/
def locateExecutableSpec (probe : String → ProbeResult) (pathEnv : Option String) :
    Option String :=
  (sofficeCandidates (sofficeDirs pathEnv)).find? (fun c => probe c = ProbeResult.found)

/-- A probe whose failures have been replaced by absence. -/
def probeFailedAsAbsent (probe : String → ProbeResult) : String → ProbeResult :=
  fun p => match probe p with
    | ProbeResult.failed => ProbeResult.absent
    | r => r

/-! ## LibreOffice module: font configuration (`prepareFontConfig`) -/

/-- Environment of `prepareFontConfig`: the directory-existence probe
(`none` = the probe throws, caught by the source and treated as absent)
and the fallible directory and file creation steps. -/
structure FontEnv where
  dirProbe : String → Option Bool
  mkdirFontConfig : Except String Unit
  mkdirCache : Except String Unit
  mkdirFonts : Except String Unit
  writeConf : Except String Unit

/-- The candidate font directories (libreoffice.ts lines 227-238) that
survive the existence filter, probe failures counting as absent. -/
def fontCandidateDirs (env : FontEnv) : List String :=
  ["/tmp/libreoffice/instdir/share/fonts", "/opt/libreoffice/share/fonts",
    "/opt/fonts", "/usr/share/fonts"].filter
    (fun d => (env.dirProbe d).getD false)

/-- Function `createFontConfigXml(fontDirs, cacheDir)` (libreoffice.ts
lines 273-284), byte for byte. -/
def createFontConfigXml (fontDirs : List String) (cacheDir : String) : String :=
  let dirEntries :=
    String.intercalate ("\n") (fontDirs.map (fun dir => "  <dir>" ++ dir ++ "</dir>"))
  "<?xml version=\"1.0\"?>\n<!DOCTYPE fontconfig SYSTEM \"fonts.dtd\">\n<fontconfig>\n"
    ++ dirEntries
    ++ "\n  <dir>/tmp/fonts</dir>\n  <cachedir>" ++ cacheDir
    ++ "</cachedir>\n  <config></config>\n</fontconfig>"

/-- Environment-level configuration produced by a successful font
preparation, plus the configuration document that was written. -/
structure FontConfigResult where
  fontconfigPath : String
  fontconfigFile : String
  xdgCacheHome : String
  xdgConfigHome : String
  confXml : String
deriving DecidableEq

/-- Body of `prepareFontConfig()` (libreoffice.ts lines 226-264, the try
block): gather existing font directories, create the scratch directories,
write the configuration document, export the environment variables. -/
def prepareFontConfigBody (env : FontEnv) : Except String FontConfigResult := do
  let candidateDirs := fontCandidateDirs env
  let _ ← env.mkdirFontConfig
  let _ ← env.mkdirCache
  let _ ← env.mkdirFonts
  let confPath := pathJoin ("/tmp/fontconfig") ("fonts.conf")
  let xml := createFontConfigXml candidateDirs ("/tmp/fontconfig-cache")
  let _ ← env.writeConf
  pure ⟨"/tmp/fontconfig", confPath, "/tmp", "/tmp", xml⟩

/-- Function `prepareFontConfig()` (libreoffice.ts lines 223-268) as a step
on the `fontConfigReady` flag.  The source catches every exception and
returns normally (warning logged), so the step is total; the returned pair
is (new flag value, whether the body was attempted). -/
def prepareFontConfig (env : FontEnv) (fontConfigReady : Bool) : Bool × Bool :=
  if fontConfigReady then (true, false)
  else
    match prepareFontConfigBody env with
    | .ok _ => (true, true)
    | .error _ => (false, true)

/-! ## Warmup coordinator (src/modules/request-handler.ts lines 882-961) -/

/-- Environment of `performWarmup`: the awaited result of
`ensureLibreOfficeExtracted()`, the skip-convert flag, the value of
`isLibreOfficeReady()` at check time, and `validateTemplate()`. -/
structure WarmupEnv where
  skipConvert : Bool
  ensureExtract : Except String Unit
  loReady : Bool
  templateValid : Bool

/-- Function `performWarmup()` (request-handler.ts lines 898-930).  The
trailing `getCarboneVersion()` and `findSofficeBinary()` calls are
diagnostics only; the catch clause logs and re-throws the same error. -/
def performWarmup (env : WarmupEnv) : Except String Unit :=
  match env.ensureExtract with
  | .error e => .error e
  | .ok _ =>
    if !env.skipConvert && !env.loReady then
      .error ("LibreOffice not available after extraction")
    else if !env.templateValid then
      .error ("Template missing")
    else
      .ok ()

/-- Module-level `warmupPromise` state of request-handler.ts: the id of the
single memoized promise and the value it settles with. -/
structure WarmupState where
  warmupPromise : Option Nat
  warmupOutcome : Option (Except String Unit)

/-- What one call to `warmup()` or `ensureWarmup()` returns: the existing
memoized promise, or a freshly started one. -/
inductive WarmupCallResult where
  | joined (pid : Nat)
  | started (pid : Nat)
deriving DecidableEq

/-- Function `warmup()` (request-handler.ts lines 888-893) as a step on the
module state; a freshly created promise settles with `performWarmup env`. -/
def warmup (env : WarmupEnv) (s : WarmupState) (fresh : Nat) :
    WarmupState × WarmupCallResult :=
  match s.warmupPromise with
  | some p => (s, .joined p)
  | none => (⟨some fresh, some (performWarmup env)⟩, .started fresh)

/-- The module-level warmup call at load time (request-handler.ts line 950,
its rejection swallowed by the attached catch), with promise id 0. -/
def warmupModuleLoad (env : WarmupEnv) : WarmupState × WarmupCallResult :=
  warmup env ⟨none, none⟩ 0

/-- Function `ensureWarmup()` (request-handler.ts lines 958-961): awaits
the module-load promise and then returns `warmup()`; its effect on the
module state is exactly a `warmup()` call. -/
def ensureWarmup (env : WarmupEnv) (s : WarmupState) (fresh : Nat) :
    WarmupState × WarmupCallResult :=
  warmup env s fresh

/-- Run `n` further `warmup()` or `ensureWarmup()` calls, allocating fresh
promise ids from `k`. -/
def warmupRun (env : WarmupEnv) : WarmupState → Nat → Nat → WarmupState × List WarmupCallResult
  | s, _, 0 => (s, [])
  | s, k, n + 1 =>
    let step := warmup env s k
    let rest := warmupRun env step.1 (k + 1) n
    (rest.1, step.2 :: rest.2)

/-- Promise id of a warmup call that started the underlying routine. -/
def warmupStartedPid : WarmupCallResult → Option Nat
  | .started p => some p
  | _ => none

/-! ## Request handler: authentication (`validateAuth`) -/

/-- The parts of the API gateway event read by `validateAuth`
(request-handler.ts lines 15-66).  `contentType` is the merged
content-type header, `authorization` the merged authorization header. -/
structure AuthEvent where
  queryPassword : Option String
  method : String
  body : Option String
  isBase64Encoded : Bool
  contentType : Option String
  authorization : Option String

/-- JavaScript substring test, via `splitOn`: the pattern occurs iff
splitting on it produces more than one piece. -/
def strIncludes (s pat : String) : Bool := (s.splitOn pat).length != 1

/-- Function `validateAuth(event)` (request-handler.ts lines 15-66).
`base64Decode` models base64 decoding of a buffer to utf-8 and
`formGetPassword` models reading the password field of a parsed
url-encoded form body; both are opaque external functions.  JavaScript
truthiness makes the initial guard accept both an unset and an empty
expected-password variable, and makes an empty body skip the form
branch. -/
def validateAuth (expectedPassword : Option String)
    (base64Decode : String → String) (formGetPassword : String → Option String)
    (e : AuthEvent) : Bool :=
  match expectedPassword with
  | none => true
  | some expected =>
    if expected == "" then true
    else if e.queryPassword == some expected then true
    else
      let viaForm :=
        match e.body with
        | none => false
        | some body =>
          body != "" && e.method == "POST" &&
            (strIncludes (e.contentType.getD ("")) ("application/x-www-form-urlencoded") &&
              (let bodyText := if e.isBase64Encoded then base64Decode body else body
               formGetPassword bodyText == some expected))
      if viaForm then true
      else
        match e.authorization with
        | none => false
        | some h =>
          if h.startsWith ("Basic ") then
            let credentials := base64Decode (h.drop 6)
            match (credentials.splitOn (":")).drop 1 with
            | password :: _ => password == expected
            | [] => false
          else false

/-! ## Concrete environments used by witnesses and counterexamples -/

/-- Render environment where the primary filter succeeds. -/
def renderEnvPrimaryOk : RenderEnv :=
  ⟨false, false,
    fun o => if o = some ("pdf") then .ok ("PRIMARY") else .error ("other filter"),
    some ("/tmp/bin/soffice"), .ok (), false, .ok (),
    fun _ => ⟨some ("never invoked"), none, none⟩⟩

/-- Render environment where every strategy fails and the binary is
absent. -/
def renderEnvAllFail : RenderEnv :=
  ⟨false, false,
    fun o =>
      if o = some ("pdf") then .error ("primary failed")
      else if o = some ("pdf:writer_pdf_Export") then .error ("writer failed")
      else .error ("docx failed"),
    none, .ok (), false, .ok (),
    fun _ => ⟨some ("never invoked"), none, none⟩⟩

/-- Render environment where both library filters fail and the first
subprocess attempt is reported failed after having produced the output
file; the remaining attempts fail without output. -/
def renderEnvStaleOutput : RenderEnv :=
  ⟨false, false,
    fun o => if o = none then .ok ("DOCXBYTES") else .error ("carbone failed"),
    some ("/tmp/bin/soffice"), .ok (), false, .ok (),
    fun f => if f = "pdf" then ⟨some ("timeout"), some ("PDFBYTES"), none⟩
      else ⟨some ("exec failed"), none, none⟩⟩

/-- Render environment where both library filters fail and the first
subprocess attempt succeeds cleanly. -/
def renderEnvFallbackOk : RenderEnv :=
  ⟨false, false,
    fun o => if o = none then .ok ("DOCXBYTES") else .error ("carbone failed"),
    some ("/tmp/bin/soffice"), .ok (), false, .ok (),
    fun f => if f = "pdf" then ⟨none, some ("GOODPDF"), none⟩
      else ⟨some ("exec failed"), none, none⟩⟩

/-- Render environment where both library filters fail, DOCX generation
succeeds, and the scratch-input write throws. -/
def renderEnvWriteFails : RenderEnv :=
  ⟨false, false,
    fun o =>
      if o = none then .ok ("DOCXBYTES")
      else if o = some ("pdf") then .error ("primary failed")
      else .error ("writer failed"),
    some ("/tmp/bin/soffice"), .error ("disk full"), false, .ok (),
    fun _ => ⟨some ("never invoked"), none, none⟩⟩

/-- Render environment where both library filters fail, the scratch input
is written, and the profile-directory creation throws. -/
def renderEnvMkdirFails : RenderEnv :=
  ⟨false, false,
    fun o => if o = none then .ok ("DOCXBYTES") else .error ("carbone failed"),
    some ("/tmp/bin/soffice"), .ok (), false, .error ("mkdir failed"),
    fun _ => ⟨some ("never invoked"), none, none⟩⟩

/-- Extraction environment whose archive read throws. -/
def extractEnvReadFails : ExtractEnv :=
  ⟨false, true, false, .ok (), fun _ => .error ("archive read failed"),
    fun b => .ok b, fun b => .ok b, .ok (), .ok ()⟩

/-- Font environment whose configuration write throws. -/
def fontEnvWriteFails : FontEnv :=
  ⟨fun _ => some false, .ok (), .ok (), .ok (), .error ("read-only filesystem")⟩

/-- Font environment where every step succeeds (no font directory
present). -/
def fontEnvAllOk : FontEnv :=
  ⟨fun _ => some false, .ok (), .ok (), .ok (), .ok ()⟩

/-- The configuration produced by `fontEnvAllOk`. -/
def fontConfigResultAllOk : FontConfigResult :=
  ⟨"/tmp/fontconfig", pathJoin ("/tmp/fontconfig") ("fonts.conf"), "/tmp", "/tmp",
    createFontConfigXml [] ("/tmp/fontconfig-cache")⟩

/-- Warmup environment whose readiness check fails. -/
def warmupEnvNotReady : WarmupEnv := ⟨false, Except.ok (), false, true⟩

/-! ## Theorems -/

/-- C4: whenever the skip-convert flag is set, `renderPdf` returns the
fixed placeholder buffer — whose first five bytes are the PDF signature and
which is non-empty — with no filesystem or subprocess activity, for every
environment (in particular for every input, since the data only reaches
the carbone oracle, which is never consulted). -/
theorem renderPdf_skip_returns_placeholder (env : RenderEnv) :
    renderPdf { env with skipConvert := true }
      = ⟨.ok createPlaceholderPdf, ⟨false, none⟩, [], false, false, false⟩
    ∧ createPlaceholderPdf.take 5 = "%PDF-"
    ∧ createPlaceholderPdf ≠ "" := by
  refine ⟨rfl, by decide, by decide⟩

/-- C7: when the primary carbone render with the generic filter succeeds
(and the skip and always-soffice flags are unset), `renderPdf` resolves
with that buffer, no subprocess is invoked, and the fallback path is never
entered. -/
theorem renderPdf_primary_success_skips_fallback (env : RenderEnv) (b : String)
    (hskip : env.skipConvert = false) (halways : env.alwaysSoffice = false)
    (hp : env.carboneRender (some ("pdf")) = Except.ok b) :
    renderPdf env = ⟨.ok b, ⟨false, none⟩, [], false, false, true⟩ := by
  simp [renderPdf, carboneToBuf, hskip, halways, hp]

/-- Witness for C7 at a concrete environment. -/
theorem renderPdf_primary_success_skips_fallback_witness :
    renderPdf renderEnvPrimaryOk
      = ⟨Except.ok ("PRIMARY"), ⟨false, none⟩, [], false, false, true⟩ :=
  renderPdf_primary_success_skips_fallback renderEnvPrimaryOk ("PRIMARY") rfl rfl rfl

/-- An error thrown by `fallbackSofficePath` when a primary error is
recorded and the uncaught scratch-write and profile-mkdir steps do not
throw is always that primary error. -/
theorem fallbackSofficePath_error_eq (env : RenderEnv) (pe c : String)
    (hwr : env.writeInput = Except.ok ()) (hmk : env.mkdirProfile = Except.ok ())
    (h : (fallbackSofficePath env (some pe)).result = Except.error c) : c = pe := by
  simp only [fallbackSofficePath] at h
  cases hsp : env.sofficePath with
  | none =>
    rw [hsp] at h
    simp at h
    exact h.symm
  | some sp =>
    rw [hsp] at h
    cases hdocx : carboneToBuf env none with
    | error e =>
      rw [hdocx] at h
      simp at h
      exact h.symm
    | ok d =>
      rw [hdocx, hwr, hmk] at h
      cases hs : (sofficeLoop env.exec conversionAttemptFilters ⟨true, none⟩ none).success with
      | some buf =>
        rw [hs] at h
        simp at h
      | none =>
        rw [hs] at h
        simp at h
        exact h.symm

/-- C2 (amended): when the primary filter fails with `e1`, the secondary
filter also fails, and the flags are unset, `renderPdf` forwards the
fallback outcome: it resolves with the fallback's buffer when some
fallback strategy succeeds, and — provided the uncaught scratch-input
write and profile-directory creation do not throw — every failing exit
(engine not locatable, DOCX generation failed, all subprocess attempts
failed) rejects with the primary error `e1`.  When the scratch-input
write or the profile-directory creation does throw, that exception
propagates as the result instead of the primary error (the as-stated
claim fails there; see `renderPdf_write_failure_masks_primary`). -/
theorem renderPdf_reports_primary_error (env : RenderEnv) (e1 e2 : String)
    (hskip : env.skipConvert = false) (halways : env.alwaysSoffice = false)
    (hp : env.carboneRender (some ("pdf")) = Except.error e1)
    (hw : env.carboneRender (some ("pdf:writer_pdf_Export")) = Except.error e2) :
    (renderPdf env).result = (fallbackSofficePath env (some e1)).result
    ∧ (env.sofficePath = none → (renderPdf env).result = Except.error e1)
    ∧ (env.writeInput = Except.ok () → env.mkdirProfile = Except.ok () →
        ∀ c, (fallbackSofficePath env (some e1)).result = Except.error c →
          (renderPdf env).result = Except.error e1)
    ∧ (∀ b, (fallbackSofficePath env (some e1)).result = Except.ok b →
        (renderPdf env).result = Except.ok b)
    ∧ (∀ sp d ew, env.sofficePath = some sp → carboneToBuf env none = Except.ok d →
        env.writeInput = Except.error ew → (renderPdf env).result = Except.error ew)
    ∧ (∀ sp d em, env.sofficePath = some sp → carboneToBuf env none = Except.ok d →
        env.writeInput = Except.ok () → env.mkdirProfile = Except.error em →
        (renderPdf env).result = Except.error em) := by
  have h1 : (renderPdf env).result = (fallbackSofficePath env (some e1)).result := by
    simp [renderPdf, carboneToBuf, hskip, halways, hp, hw]
  refine ⟨h1, ?_, ?_, ?_, ?_, ?_⟩
  · intro hsp
    rw [h1]
    simp [fallbackSofficePath, hsp]
  · intro hwr hmk c hc
    rw [h1, hc, fallbackSofficePath_error_eq env e1 c hwr hmk hc]
  · intro b hb
    rw [h1, hb]
  · intro sp d ew hsp hdocx hwr
    rw [h1]
    simp [fallbackSofficePath, hsp, hdocx, hwr]
  · intro sp d em hsp hdocx hwr hmk
    rw [h1]
    simp [fallbackSofficePath, hsp, hdocx, hwr, hmk]

/-- Witness for C2 at a concrete environment where everything fails and
the uncaught filesystem steps succeed. -/
theorem renderPdf_reports_primary_error_witness :
    (renderPdf renderEnvAllFail).result = Except.error ("primary failed") :=
  (renderPdf_reports_primary_error renderEnvAllFail ("primary failed") ("writer failed")
    rfl rfl rfl rfl).2.1 rfl

/-- Counterexample to C2 as stated: in `renderEnvWriteFails` the primary
filter fails, the secondary filter fails, the engine is locatable, and no
subprocess attempt ever runs — yet `renderPdf` rejects with the
scratch-input write's own error, which differs from the primary error. -/
theorem renderPdf_write_failure_masks_primary :
    (renderPdf renderEnvWriteFails).result = Except.error ("disk full")
    ∧ "disk full" ≠ "primary failed"
    ∧ (renderPdf renderEnvWriteFails).calls = [] := by
  refine ⟨rfl, by decide, rfl⟩

/-- C9: when no expected password is configured (the variable is unset, or
set to the empty string, both falsy in JavaScript), `validateAuth` returns
true for every request event, whatever its query parameters, body or
headers. -/
theorem validateAuth_bypasses_without_password (base64Decode : String → String)
    (formGetPassword : String → Option String) (e : AuthEvent) :
    validateAuth none base64Decode formGetPassword e = true
    ∧ validateAuth (some ("")) base64Decode formGetPassword e = true :=
  ⟨rfl, rfl⟩

/-- When the fallback loop succeeds, both scratch files have been
unlinked. -/
theorem sofficeLoop_success_cleans (exec : String → ExecAttempt) :
    ∀ (filters : List String) (fs : FsState) (le : Option String) (b : String),
      (sofficeLoop exec filters fs le).success = some b →
      (sofficeLoop exec filters fs le).fs = ⟨false, none⟩ := by
  intro filters
  induction filters with
  | nil =>
    intro fs le b h
    simp [sofficeLoop] at h
  | cons f rest ih =>
    intro fs le b h
    simp only [sofficeLoop] at h ⊢
    cases hE : (exec f).execErr with
    | some e =>
      rw [hE] at h
      simp only [tack] at h ⊢
      exact ih _ _ b h
    | none =>
      rw [hE] at h
      cases hO : (outputAfter (exec f) fs).output with
      | some buf =>
        rw [hO] at h
        cases hR : (exec f).readErr with
        | some e =>
          rw [hR] at h
          simp only [tack] at h ⊢
          exact ih _ _ b h
        | none => simp
      | none =>
        rw [hO] at h
        simp only [tack] at h ⊢
        exact ih _ _ b h

/-- When the uncaught scratch-write and profile-mkdir steps do not throw,
the scratch input file never survives `fallbackSofficePath`, and on a
successful fallback the scratch output file does not survive either. -/
theorem fallbackSofficePath_cleans (env : RenderEnv) (pe : Option String)
    (hwr : env.writeInput = Except.ok ()) (hmk : env.mkdirProfile = Except.ok ()) :
    (fallbackSofficePath env pe).fs.inputExists = false
    ∧ (∀ b, (fallbackSofficePath env pe).result = Except.ok b →
        (fallbackSofficePath env pe).fs.output = none) := by
  simp only [fallbackSofficePath]
  cases hsp : env.sofficePath with
  | none => exact ⟨rfl, fun b _ => rfl⟩
  | some sp =>
    cases hdocx : carboneToBuf env none with
    | error e => exact ⟨rfl, fun b _ => rfl⟩
    | ok d =>
      rw [hwr, hmk]
      cases hs : (sofficeLoop env.exec conversionAttemptFilters ⟨true, none⟩ none).success with
      | some buf =>
        have hfs := sofficeLoop_success_cleans env.exec conversionAttemptFilters
          ⟨true, none⟩ none buf hs
        constructor
        · simp [hfs]
        · intro b _
          simp [hfs]
      | none =>
        exact ⟨rfl, fun b hb => by simp at hb⟩

/-- C3 (amended): provided the uncaught scratch-input write and
profile-directory creation do not throw, the scratch input file does not
exist after `renderPdf` returns on any path, and on every success path the
scratch output PDF does not exist either.  The original claim fails in two
ways, both shown by `renderPdf_failure_leaves_scratch_output`: on the
attempts-exhausted failure exit only the input file is deleted, so an
output PDF produced by a failed attempt can remain; and a throw from the
profile-directory creation after the input write propagates with no
cleanup at all, leaving the scratch input file behind. -/
theorem renderPdf_scratch_files_removed (env : RenderEnv)
    (hwr : env.writeInput = Except.ok ()) (hmk : env.mkdirProfile = Except.ok ()) :
    (renderPdf env).fs.inputExists = false
    ∧ (∀ b, (renderPdf env).result = Except.ok b → (renderPdf env).fs.output = none) := by
  cases hskip : env.skipConvert with
  | true =>
    constructor
    · simp [renderPdf, hskip]
    · intro b _
      simp [renderPdf, hskip]
  | false =>
    cases halways : env.alwaysSoffice with
    | true =>
      have hfb := fallbackSofficePath_cleans env none hwr hmk
      constructor
      · simpa [renderPdf, hskip, halways] using hfb.1
      · intro b hb
        have hb' : (fallbackSofficePath env none).result = Except.ok b := by
          simpa [renderPdf, hskip, halways] using hb
        simpa [renderPdf, hskip, halways] using hfb.2 b hb'
    | false =>
      cases hp : env.carboneRender (some ("pdf")) with
      | ok b0 =>
        constructor
        · simp [renderPdf, carboneToBuf, hskip, halways, hp]
        · intro b _
          simp [renderPdf, carboneToBuf, hskip, halways, hp]
      | error e1 =>
        cases hw : env.carboneRender (some ("pdf:writer_pdf_Export")) with
        | ok b0 =>
          constructor
          · simp [renderPdf, carboneToBuf, hskip, halways, hp, hw]
          · intro b _
            simp [renderPdf, carboneToBuf, hskip, halways, hp, hw]
        | error e2 =>
          have hfb := fallbackSofficePath_cleans env (some e1) hwr hmk
          constructor
          · simpa [renderPdf, carboneToBuf, hskip, halways, hp, hw] using hfb.1
          · intro b hb
            have hb' : (fallbackSofficePath env (some e1)).result = Except.ok b := by
              simpa [renderPdf, carboneToBuf, hskip, halways, hp, hw] using hb
            simpa [renderPdf, carboneToBuf, hskip, halways, hp, hw] using hfb.2 b hb'

/-- Counterexample to C3 as stated, in both directions.  In
`renderEnvStaleOutput` the fallback is entered, the scratch files are
written, every attempt fails — and the scratch output PDF (produced by
the first, failed, attempt) still exists after `renderPdf` returns.  In
`renderEnvMkdirFails` the scratch input is written and the
profile-directory creation then throws — `renderPdf` rejects with that
error and the scratch input file still exists, no removal having been
attempted. -/
theorem renderPdf_failure_leaves_scratch_output :
    (renderPdf renderEnvStaleOutput).enteredFallback = true
    ∧ (renderPdf renderEnvStaleOutput).wroteInput = true
    ∧ (renderPdf renderEnvStaleOutput).result = Except.error ("carbone failed")
    ∧ (renderPdf renderEnvStaleOutput).fs.output = some ("PDFBYTES")
    ∧ (renderPdf renderEnvMkdirFails).enteredFallback = true
    ∧ (renderPdf renderEnvMkdirFails).wroteInput = true
    ∧ (renderPdf renderEnvMkdirFails).result = Except.error ("mkdir failed")
    ∧ (renderPdf renderEnvMkdirFails).fs.inputExists = true := by
  refine ⟨rfl, rfl, rfl, rfl, rfl, rfl, rfl, rfl⟩

/-- Witness for the amended C3 at a concrete successful fallback run. -/
theorem renderPdf_scratch_files_removed_witness :
    (renderPdf renderEnvFallbackOk).fs.inputExists = false
    ∧ (renderPdf renderEnvFallbackOk).fs.output = none :=
  ⟨(renderPdf_scratch_files_removed renderEnvFallbackOk rfl rfl).1,
    (renderPdf_scratch_files_removed renderEnvFallbackOk rfl rfl).2 ("GOODPDF") rfl⟩

/-- Two pointwise-equal predicates find the same first element. -/
theorem listFindCongr {α : Type} (p q : α → Bool) (h : ∀ x, p x = q x) :
    ∀ l : List α, l.find? p = l.find? q := by
  intro l
  induction l with
  | nil => rfl
  | cons a l ih =>
    rw [List.find?_cons, List.find?_cons, h a, ih]

/-- The nested loops of `findSofficeBinary` compute the first found element
of the flat, ordered candidate list. -/
theorem findSofficeInDirs_eq_find (probe : String → ProbeResult) :
    ∀ ds : List String,
      findSofficeInDirs probe ds
        = (sofficeCandidates ds).find? (fun c => probe c = ProbeResult.found) := by
  intro ds
  induction ds with
  | nil => rfl
  | cons d ds ih =>
    simp only [findSofficeInDirs, findSofficeInDir, sofficeNames, sofficeCandidates,
      List.find?_cons]
    cases h1 : probe (pathJoin d ("soffice")) <;>
      cases h2 : probe (pathJoin d ("soffice.bin")) <;>
      simp [h1, h2, ih]

/-- C8: `findSofficeBinary` returns exactly the first existing candidate of
the fixed probe order — extraction program directory, the two well-known
alternates, then each PATH entry, probing the plain name before the
bin-suffixed name in each directory — or absence; and it never throws:
a probe that fails behaves exactly like a probe that reports absence. -/
theorem findSofficeBinary_first_existing_candidate (probe : String → ProbeResult)
    (pathEnv : Option String) :
    findSofficeBinary probe pathEnv = locateExecutableSpec probe pathEnv
    ∧ findSofficeBinary (probeFailedAsAbsent probe) pathEnv
        = findSofficeBinary probe pathEnv := by
  constructor
  · exact findSofficeInDirs_eq_find probe (sofficeDirs pathEnv)
  · rw [findSofficeBinary, findSofficeBinary, findSofficeInDirs_eq_find,
      findSofficeInDirs_eq_find]
    apply listFindCongr
    intro x
    cases h : probe x <;> simp [probeFailedAsAbsent, h]

/-- Once an extraction promise exists, no event ever starts another
extraction, every pending handle returned is that same promise, and the
promise's settlement value never changes. -/
theorem loRun_pending (env : ExtractEnv) (p : Nat) :
    ∀ (es : List LOEvent) (s : LOState) (k : Nat),
      s.loExtractPromise = some p →
      s.promiseOutcome = some (extractLibreOffice env) →
      (loRun env false es s k).1.loExtractPromise = some p
      ∧ (loRun env false es s k).1.promiseOutcome = some (extractLibreOffice env)
      ∧ (loRun env false es s k).2.filterMap loStartedPid = []
      ∧ ∀ q ∈ (loRun env false es s k).2.filterMap loHandlePid, q = p := by
  intro es
  induction es with
  | nil =>
    intro s k h1 h2
    exact ⟨h1, h2, rfl, by intro q hq; simp [loRun] at hq⟩
  | cons e es ih =>
    intro s k h1 h2
    cases e with
    | call =>
      cases hr : s.loReady with
      | true =>
        have hstep : ensureLibreOfficeExtracted env false s k = (s, LOCallResult.ready) := by
          simp [ensureLibreOfficeExtracted, hr]
        have hrec := ih s (k + 1) h1 h2
        simp only [loRun, hstep]
        exact ⟨hrec.1, hrec.2.1, by simp [List.filterMap_cons, loStartedPid, hrec.2.2.1],
          by
            intro q hq
            simp only [List.filterMap_cons, loHandlePid] at hq
            exact hrec.2.2.2 q hq⟩
      | false =>
        have hstep : ensureLibreOfficeExtracted env false s k = (s, LOCallResult.joined p) := by
          simp [ensureLibreOfficeExtracted, hr, h1]
        have hrec := ih s (k + 1) h1 h2
        simp only [loRun, hstep]
        refine ⟨hrec.1, hrec.2.1, by simp [List.filterMap_cons, loStartedPid, hrec.2.2.1], ?_⟩
        intro q hq
        simp only [List.filterMap_cons, loHandlePid, List.mem_cons] at hq
        cases hq with
        | inl h => exact h
        | inr h => exact hrec.2.2.2 q h
    | complete =>
      have hres : (resolveExtraction s).loExtractPromise = some p
          ∧ (resolveExtraction s).promiseOutcome = some (extractLibreOffice env) := by
        rw [resolveExtraction, h2]
        cases hx : extractLibreOffice env with
        | ok v => cases v <;> simp [h1, h2, hx]
        | error e => simp [h1, h2, hx]
      simp only [loRun]
      exact ih (resolveExtraction s) (k + 1) hres.1 hres.2

/-- From a state with no promise, any event interleaving starts at most one
extraction, all pending handles returned agree, and the final settlement
slot is either still empty or holds the single extraction outcome. -/
theorem loRun_fresh (env : ExtractEnv) :
    ∀ (es : List LOEvent) (s : LOState) (k : Nat),
      s.loExtractPromise = none →
      s.promiseOutcome = none →
      ((loRun env false es s k).2.filterMap loStartedPid).length ≤ 1
      ∧ (∀ a ∈ (loRun env false es s k).2.filterMap loHandlePid,
          ∀ b ∈ (loRun env false es s k).2.filterMap loHandlePid, a = b)
      ∧ ((loRun env false es s k).1.promiseOutcome = none
         ∨ (loRun env false es s k).1.promiseOutcome = some (extractLibreOffice env)) := by
  intro es
  induction es with
  | nil =>
    intro s k h1 h2
    exact ⟨by simp [loRun], by intro a ha; simp [loRun] at ha, Or.inl h2⟩
  | cons e es ih =>
    intro s k h1 h2
    cases e with
    | call =>
      cases hr : s.loReady with
      | true =>
        have hstep : ensureLibreOfficeExtracted env false s k = (s, LOCallResult.ready) := by
          simp [ensureLibreOfficeExtracted, hr]
        have hrec := ih s (k + 1) h1 h2
        simp only [loRun, hstep]
        refine ⟨by simpa [List.filterMap_cons, loStartedPid] using hrec.1, ?_, hrec.2.2⟩
        intro a ha b hb
        simp only [List.filterMap_cons, loHandlePid] at ha hb
        exact hrec.2.1 a ha b hb
      | false =>
        have hstep : ensureLibreOfficeExtracted env false s k
            = (⟨s.loReady, some k, some (extractLibreOffice env)⟩, LOCallResult.started k) := by
          simp [ensureLibreOfficeExtracted, hr, h1]
        have hrec := loRun_pending env k es ⟨s.loReady, some k, some (extractLibreOffice env)⟩
          (k + 1) rfl rfl
        simp only [loRun, hstep]
        refine ⟨by simp [List.filterMap_cons, loStartedPid, hrec.2.2.1], ?_,
          Or.inr hrec.2.1⟩
        intro a ha b hb
        simp only [List.filterMap_cons, loHandlePid, List.mem_cons] at ha hb
        have hak : a = k := by
          cases ha with
          | inl h => exact h
          | inr h => exact hrec.2.2.2 a h
        have hbk : b = k := by
          cases hb with
          | inl h => exact h
          | inr h => exact hrec.2.2.2 b h
        rw [hak, hbk]
    | complete =>
      have hres : resolveExtraction s = s := by
        rw [resolveExtraction, h2]
      simp only [loRun, hres]
      exact ih s (k + 1) h1 h2

/-- C1: from the initial module state with the skip flag unset, any
interleaving of callers and the extraction completing starts at most one
underlying extraction; every caller that is handed a pending promise is
handed the same one; and the single promise settles with the one fixed
extraction outcome, so all such callers observe the same success or
failure. -/
theorem ensureLibreOfficeExtracted_single_flight (env : ExtractEnv) (es : List LOEvent) :
    ((loRun env false es loInit 0).2.filterMap loStartedPid).length ≤ 1
    ∧ (∀ a ∈ (loRun env false es loInit 0).2.filterMap loHandlePid,
        ∀ b ∈ (loRun env false es loInit 0).2.filterMap loHandlePid, a = b)
    ∧ ((loRun env false es loInit 0).1.promiseOutcome = none
       ∨ (loRun env false es loInit 0).1.promiseOutcome = some (extractLibreOffice env)) :=
  loRun_fresh env es loInit 0 rfl rfl

/-- A rejected extraction is absorbing: from a state whose promise has
settled with an error, every event leaves the state unchanged and every
caller is returned the same failed promise. -/
theorem loRun_terminal (env : ExtractEnv) (p : Nat) (e : String) :
    ∀ (es : List LOEvent) (k : Nat),
      loRun env false es ⟨false, some p, some (Except.error e)⟩ k
        = (⟨false, some p, some (Except.error e)⟩,
           es.filterMap (fun ev => match ev with
             | LOEvent.call => some (LOCallResult.joined p)
             | LOEvent.complete => none)) := by
  intro es
  induction es with
  | nil => intro k; rfl
  | cons ev es ih =>
    intro k
    cases ev with
    | call =>
      simp only [loRun, ensureLibreOfficeExtracted, List.filterMap_cons]
      simp [ih (k + 1)]
    | complete =>
      simp only [loRun, resolveExtraction, List.filterMap_cons]
      simp [ih (k + 1)]

/-- C6: when any extraction step throws `e`, `extractLibreOffice` rejects
with that same exception; afterwards `loReady` stays false, the settled
slot keeps the rejection, no call ever starts a second extraction, and
every later call within the process is returned the same failed promise. -/
theorem extractLibreOffice_failure_terminal (env : ExtractEnv) (e : String)
    (hbody : extractBody env = Except.error e) (p k : Nat) (es : List LOEvent) :
    extractLibreOffice env = Except.error e
    ∧ (loRun env false es ⟨false, some p, some (extractLibreOffice env)⟩ k).1.loReady = false
    ∧ (loRun env false es ⟨false, some p, some (extractLibreOffice env)⟩ k).1.promiseOutcome
        = some (Except.error e)
    ∧ (loRun env false es
        ⟨false, some p, some (extractLibreOffice env)⟩ k).2.filterMap loStartedPid = []
    ∧ ∀ r ∈ (loRun env false es ⟨false, some p, some (extractLibreOffice env)⟩ k).2,
        r = LOCallResult.joined p := by
  have hx : extractLibreOffice env = Except.error e := by
    simp [extractLibreOffice, hbody]
  rw [hx, loRun_terminal env p e es k]
  have hmem : ∀ r ∈ es.filterMap (fun ev => match ev with
      | LOEvent.call => some (LOCallResult.joined p)
      | LOEvent.complete => none), r = LOCallResult.joined p := by
    intro r hr
    rcases List.mem_filterMap.mp hr with ⟨ev, _, hev⟩
    cases ev with
    | call => simpa using hev.symm
    | complete => simp at hev
  refine ⟨rfl, rfl, rfl, ?_, hmem⟩
  rw [List.filterMap_eq_nil_iff]
  intro r hr
  rw [hmem r hr]
  rfl

/-- Witness for C6 at a concrete environment whose archive read throws. -/
theorem extractLibreOffice_failure_terminal_witness :
    extractBody extractEnvReadFails = Except.error ("archive read failed")
    ∧ extractLibreOffice extractEnvReadFails = Except.error ("archive read failed") :=
  ⟨rfl, (extractLibreOffice_failure_terminal extractEnvReadFails ("archive read failed")
    rfl 0 1 []).1⟩

/-- Once the warmup promise exists, further calls return it unchanged. -/
theorem warmupRun_pending (env : WarmupEnv) (p : Nat) (out : Option (Except String Unit)) :
    ∀ (n k : Nat),
      warmupRun env ⟨some p, out⟩ k n
        = (⟨some p, out⟩, List.replicate n (WarmupCallResult.joined p)) := by
  intro n
  induction n with
  | zero => intro k; rfl
  | succ m ih =>
    intro k
    simp only [warmupRun, warmup, List.replicate_succ]
    rw [ih (k + 1)]

/-- C5: the module-load call is the one and only start of `performWarmup`;
every later `warmup()` or `ensureWarmup()` call — in any number, including
concurrent bursts — is returned the same memoized promise id 0, whose
settled value remains the single outcome `performWarmup env`; in
particular a failing warmup leaves that same rejection for every caller in
the process. -/
theorem warmup_runs_exactly_once (env : WarmupEnv) (n : Nat) :
    (warmupModuleLoad env).2 = WarmupCallResult.started 0
    ∧ (warmupRun env (warmupModuleLoad env).1 1 n).2
        = List.replicate n (WarmupCallResult.joined 0)
    ∧ ((warmupModuleLoad env).2 :: (warmupRun env (warmupModuleLoad env).1 1 n).2).filterMap
        warmupStartedPid = [0]
    ∧ (warmupRun env (warmupModuleLoad env).1 1 n).1.warmupOutcome
        = some (performWarmup env) := by
  have hload : warmupModuleLoad env
      = (⟨some 0, some (performWarmup env)⟩, WarmupCallResult.started 0) := rfl
  rw [hload]
  have hrun := warmupRun_pending env 0 (some (performWarmup env)) n 1
  rw [hrun]
  refine ⟨rfl, rfl, ?_, rfl⟩
  simp only [List.filterMap_cons, warmupStartedPid]
  have : (List.replicate n (WarmupCallResult.joined 0)).filterMap warmupStartedPid = [] := by
    rw [List.filterMap_eq_nil_iff]
    intro r hr
    rw [List.eq_of_mem_replicate hr]
    rfl
  rw [this]

/-- C10: the font-configuration flag is set only when the whole preparation
body succeeds; a throwing step leaves the flag unset (the function still
returning normally, as the source swallows the exception), a later call
re-attempts the full body and can succeed, and once the flag is set the
body is never re-run. -/
theorem prepareFontConfig_flag_iff_success (envA envB : FontEnv) (e : String)
    (r : FontConfigResult)
    (hfail : prepareFontConfigBody envA = Except.error e)
    (hok : prepareFontConfigBody envB = Except.ok r) :
    prepareFontConfig envA false = (false, true)
    ∧ prepareFontConfig envA true = (true, false)
    ∧ prepareFontConfig envB (prepareFontConfig envA false).1 = (true, true) := by
  have h1 : prepareFontConfig envA false = (false, true) := by
    simp [prepareFontConfig, hfail]
  refine ⟨h1, rfl, ?_⟩
  rw [h1]
  simp [prepareFontConfig, hok]

/-- Witness for C10: a write failure leaves the flag unset and a later
all-successful call sets it. -/
theorem prepareFontConfig_flag_iff_success_witness :
    prepareFontConfig fontEnvWriteFails false = (false, true)
    ∧ prepareFontConfig fontEnvAllOk false = (true, true) := by
  have h := prepareFontConfig_flag_iff_success fontEnvWriteFails fontEnvAllOk
    ("read-only filesystem") fontConfigResultAllOk rfl rfl
  exact ⟨h.1, h.2.2⟩

end CarboneLambda
